import Mathlib

/-!
Shallow embedding of the milvus-sdk-node connection layer:
the BaseClient constructor (configuration resolution, TLS mode selection,
credential construction, channel-option merging, timeout resolution) and
its checkCompatibility gate, plus the MilvusNode.createCollection payload
construction.  JavaScript semantics that matter here (truthiness of
strings/booleans/numbers, object spread with later keys winning, nullish
coalescing) are modelled explicitly.
-/

namespace MilvusSdk

/-- TLS_MODE enum: 0 = disabled, 1 = one-way auth, 2 = two-way auth. -/
inductive TLS_MODE where
  | DISABLED
  | ONE_WAY
  | TWO_WAY
deriving DecidableEq, Repr

/-- CONNECT_STATUS enum (NOT_CONNECTED is the initial state). -/
inductive CONNECT_STATUS where
  | NOT_CONNECTED
  | CONNECTING
  | CONNECTED
  | UNIMPLEMENTED
  | FAILED
deriving DecidableEq, Repr

/-- JavaScript truthiness of an optional string: undefined and the empty
string are falsy, every other string is truthy. -/
def truthyStr : Option String → Bool
  | some s => s != ""
  | none => false

/-- JavaScript truthiness of an optional boolean: undefined and false are
falsy. -/
def truthyBool : Option Bool → Bool
  | some b => b
  | none => false

/-- JavaScript `v || d` for an optional string `v`: the string itself when
truthy, otherwise the default. -/
def jsOrStr (v : Option String) (d : String) : String :=
  match v with
  | some s => if s = "" then d else s
  | none => d

/-- JavaScript `v || d` for an optional boolean. -/
def jsOrBool (v : Option Bool) (d : Bool) : Bool :=
  match v with
  | some b => if b then b else d
  | none => d

/-- A grpc channel-option value: integer or string. -/
inductive OptVal where
  | i (n : Int)
  | s (v : String)
deriving DecidableEq, Repr

/-- A JavaScript object with option-name keys, kept in insertion order;
a later entry for the same key shadows an earlier one (object spread and
assignment semantics). -/
abbrev JsObj := List (String × OptVal)

/-- Key lookup in a JsObj: the last write wins. -/
def jsGet (o : JsObj) (k : String) : Option OptVal :=
  (o.reverse.find? (fun p => p.1 == k)).map (fun p => p.2)

/-- The `tls` block of the client configuration. -/
structure TlsConfig where
  rootCertPath : Option String := none
  privateKeyPath : Option String := none
  certChainPath : Option String := none
  serverName : Option String := none
  verifyOptions : Option Unit := none
deriving DecidableEq, Repr

/-- The optional `protoFilePath` override block of the configuration. -/
structure ProtoFilePathCfg where
  milvus : Option String := none
  schema : Option String := none
deriving DecidableEq, Repr

/-- The `timeout` configuration field: absent, a number of milliseconds, or
a duration-token string. -/
inductive TimeoutVal where
  | undef
  | num (n : Int)
  | str (s : String)
deriving DecidableEq, Repr

/-- ClientConfig as consumed by the BaseClient constructor.  `address` is
an Option so that a missing field and an empty string are both
representable (both are falsy in the source's `!config.address` check).
An absent `channelOptions` object spreads nothing, exactly like `[]`. -/
structure ClientConfig where
  address : Option String := none
  ssl : Option Bool := none
  username : Option String := none
  password : Option String := none
  tls : Option TlsConfig := none
  channelOptions : JsObj := []
  id : Option String := none
  timeout : TimeoutVal := .undef
  protoFilePath : Option ProtoFilePathCfg := none
deriving DecidableEq, Repr

/-- Channel credentials: insecure, one-way SSL (created with no arguments),
or two-way SSL carrying the three optional PEM buffers (file contents, or
none when the corresponding path was not configured) and verify options. -/
inductive Creds where
  | insecure
  | sslOneWay
  | sslTwoWay (rootCert privateKey certChain : Option String)
      (verifyOptions : Option Unit)
deriving DecidableEq, Repr

/-- Errors thrown by the constructor: the missing-address configuration
error, or a file-read error (path and underlying message). -/
inductive ConstructionError where
  | MILVUS_ADDRESS_IS_REQUIRED
  | fileReadError (path : String) (e : String)
deriving DecidableEq, Repr

/-- A filesystem snapshot: maps a path to its contents or a read error.
All construction-time file reads (protobuf.loadSync, readFileSync) go
through this map. -/
abbrev FileSys := String → Except String String

/-- Default bundled milvus.proto path (path.resolve of a constant). -/
def milvusProtoPath : String := "proto/proto/milvus.proto"

/-- Default bundled schema.proto path (path.resolve of a constant). -/
def schemaProtoPath : String := "proto/proto/schema.proto"

/-- Lines 129-137 of the constructor: one-way when the address starts with
https:// or the ssl flag is truthy, then unconditionally upgraded to
two-way when the tls block carries a truthy rootCertPath. -/
def tlsModeOf (c : ClientConfig) : TLS_MODE :=
  let m1 :=
    if (c.address.getD "").startsWith "https://" || truthyBool c.ssl then
      TLS_MODE.ONE_WAY
    else
      TLS_MODE.DISABLED
  match c.tls with
  | some t => if truthyStr t.rootCertPath then TLS_MODE.TWO_WAY else m1
  | none => m1

/-- The built-in default channel options (lines 159-167). -/
def defaultChannelOptions : JsObj :=
  [("grpc.max_receive_message_length", .i (-1)),
   ("grpc.max_send_message_length", .i (-1)),
   ("grpc.keepalive_time_ms", .i 10000),
   ("grpc.keepalive_timeout_ms", .i 5000),
   ("grpc.keepalive_permit_without_calls", .i 1),
   ("grpc.enable_retries", .i 1)]

/-- Lines 158-175: spread the user channelOptions over the defaults, then
overwrite grpc.ssl_target_name_override when tls.serverName is truthy. -/
def buildChannelOptions (c : ClientConfig) : JsObj :=
  let merged := defaultChannelOptions ++ c.channelOptions
  match c.tls with
  | some t =>
    match t.serverName with
    | some sn =>
        if sn ≠ "" then
          merged ++ [("grpc.ssl_target_name_override", .s sn)]
        else merged
    | none => merged
  | none => merged

/-- Lines 140-144: protoFilePath overrides use nullish coalescing, so an
absent field (not a falsy one) falls back to the bundled default. -/
def resolveProtoPaths (c : ClientConfig) : String × String :=
  match c.protoFilePath with
  | some p => (p.milvus.getD milvusProtoPath, p.schema.getD schemaProtoPath)
  | none => (milvusProtoPath, schemaProtoPath)

/-- `readFileSync` guarded by `if (path)`: no read when the path is absent
or empty; otherwise the read is attempted (and logged), and a filesystem
error becomes a construction error.  Returns the optional buffer and the
list of paths on which a read was attempted. -/
def readIfPresent (p : Option String) (fs : FileSys) :
    Except ConstructionError (Option String) × List String :=
  match p with
  | none => (.ok none, [])
  | some s =>
    if s = "" then (.ok none, [])
    else
      match fs s with
      | .ok content => (.ok (some content), [s])
      | .error e => (.error (.fileReadError s e), [s])

/-- The configured (truthy) path of one optional PEM entry, as a list. -/
def presentPath : Option String → List String
  | some s => if s = "" then [] else [s]
  | none => []

/-- The configured PEM paths of a tls block, in the order the constructor
reads them: root certificate, private key, certificate chain. -/
def truthyPaths (t : TlsConfig) : List String :=
  presentPath t.rootCertPath ++ presentPath t.privateKeyPath ++
    presentPath t.certChainPath

/-- Lines 183-215: the TWO_WAY branch.  Reads each of the three PEM files
exactly when its path is configured, aborting on the first read error;
on success builds two-way SSL credentials from the three optional buffers
and the verify options. -/
def buildTwoWay (t : TlsConfig) (fs : FileSys) :
    Except ConstructionError Creds × List String :=
  match readIfPresent t.rootCertPath fs with
  | (.error e, l1) => (.error e, l1)
  | (.ok rootCertBuff, l1) =>
    match readIfPresent t.privateKeyPath fs with
    | (.error e, l2) => (.error e, l1 ++ l2)
    | (.ok privateKeyBuff, l2) =>
      match readIfPresent t.certChainPath fs with
      | (.error e, l3) => (.error e, l1 ++ l2 ++ l3)
      | (.ok certChainBuff, l3) =>
        (.ok (.sslTwoWay rootCertBuff privateKeyBuff certChainBuff
                t.verifyOptions),
         l1 ++ l2 ++ l3)

/-- Lines 177-220: the credential switch on the TLS mode.  In TWO_WAY the
source dereferences `this.config.tls!`; modelled with a defaulted empty
block (TWO_WAY is only reachable with a tls block present). -/
def buildCreds (c : ClientConfig) (mode : TLS_MODE) (fs : FileSys) :
    Except ConstructionError Creds × List String :=
  match mode with
  | .ONE_WAY => (.ok .sslOneWay, [])
  | .TWO_WAY => buildTwoWay (c.tls.getD {}) fs
  | .DISABLED => (.ok .insecure, [])

/-- Modelled from the spec: the fixed default connect timeout constant is
imported from a module outside this excerpt; only its identity matters to
the claims, not its value. -/
def DEFAULT_CONNECT_TIMEOUT : Int := 15000

/-- Lines 222-226: a string timeout goes through the duration-token parser
(passed in as `ptt`, its definition lives outside this excerpt); otherwise
JavaScript `config.timeout || DEFAULT_CONNECT_TIMEOUT`, in which the
number 0 and undefined are both falsy. -/
def effectiveTimeout (ptt : String → Int) (t : TimeoutVal) : Int :=
  match t with
  | .str s => ptt s
  | .num n => if n = 0 then DEFAULT_CONNECT_TIMEOUT else n
  | .undef => DEFAULT_CONNECT_TIMEOUT

/-- Lines 116-118 of the constructor: force username and password to
strings. -/
def mkConfig (c : ClientConfig) : ClientConfig :=
  { c with
    username := some (jsOrStr c.username "")
    password := some (jsOrStr c.password "") }

/-- The state of a freshly constructed BaseClient (the fields the claims
talk about).  `tlsMode`, `config` and `channelOptions` are declared
readonly in the source; the rest are mutable. -/
structure ClientState where
  clientId : String
  connectStatus : CONNECT_STATUS
  tlsMode : TLS_MODE
  config : ClientConfig
  channelOptions : JsObj
  serverInfo : List (String × String)
  timeout : Int
  protoFilePathMilvus : String
  protoFilePathSchema : String
  schemaProto : String
  milvusProto : String
  collectionSchemaType : String × String
  fieldSchemaType : String × String
  creds : Creds
  metadata : List (String × String)
deriving DecidableEq, Repr

/-- Lines 89-227: the BaseClient constructor on a configuration object.
`freshId` stands for the crypto.randomUUID() default and `ptt` for the
imported parseTimeToken.  Returns the constructed state or the thrown
error, together with the ordered log of file paths read (protobuf
loadSync of the schema then the milvus proto, then any PEM reads). -/
def construct (freshId : String) (ptt : String → Int) (cfg : ClientConfig)
    (fs : FileSys) : Except ConstructionError ClientState × List String :=
  if truthyStr cfg.address = false then
    (.error .MILVUS_ADDRESS_IS_REQUIRED, [])
  else
    let config := mkConfig cfg
    let clientId := if truthyStr config.id then config.id.getD "" else freshId
    let tlsMode := tlsModeOf config
    let paths := resolveProtoPaths config
    match fs paths.2 with
    | .error e => (.error (.fileReadError paths.2 e), [paths.2])
    | .ok schemaProto =>
      match fs paths.1 with
      | .error e => (.error (.fileReadError paths.1 e), [paths.2, paths.1])
      | .ok milvusProto =>
        let channelOptions := buildChannelOptions config
        match buildCreds config tlsMode fs with
        | (.error e, l) => (.error e, [paths.2, paths.1] ++ l)
        | (.ok creds, l) =>
          (.ok
            { clientId := clientId
              connectStatus := .NOT_CONNECTED
              tlsMode := tlsMode
              config := config
              channelOptions := channelOptions
              serverInfo := []
              timeout := effectiveTimeout ptt config.timeout
              protoFilePathMilvus := paths.1
              protoFilePathSchema := paths.2
              schemaProto := schemaProto
              milvusProto := milvusProto
              collectionSchemaType :=
                (schemaProto, "milvus.proto.schema.CollectionSchema")
              fieldSchemaType :=
                (schemaProto, "milvus.proto.schema.FieldSchema")
              creds := creds
              metadata := [] },
           [paths.2, paths.1] ++ l)

/-- The constructor on positional arguments (address string overload,
lines 99-109): builds the equivalent configuration object. -/
def constructFromAddress (freshId : String) (ptt : String → Int)
    (address : String) (ssl : Option Bool) (username password : Option String)
    (channelOptions : JsObj) (fs : FileSys) :
    Except ConstructionError ClientState × List String :=
  construct freshId ptt
    { address := some address, ssl := ssl, username := username,
      password := password, channelOptions := channelOptions } fs

/-- The default incompatibility message thrown by checkCompatibility. -/
def defaultIncompatibleMsg : String :=
  "This version of sdk is incompatible with the server, please downgrade your sdk or upgrade your server."

/-- Outcome of a checkCompatibility call: the awaited connect promise
rejected (its failure propagates), an incompatibility error was thrown,
or a value was returned (none when the method falls through without a
checker). -/
inductive CompatResult (α : Type) where
  | rejected (e : String)
  | threw (msg : String)
  | value (v : Option α)
deriving DecidableEq, Repr

/-- Lines 237-256: checkCompatibility.  It first awaits the shared connect
promise (a rejection propagates); then, only when the recorded status is
UNIMPLEMENTED, it returns the checker's result when one is supplied and
otherwise throws `data.message || defaultIncompatibleMsg`. -/
def checkCompatibility {α : Type} (connectPromise : Except String Unit)
    (connectStatus : CONNECT_STATUS) (message : Option String)
    (checker : Option (Unit → α)) : CompatResult α :=
  match connectPromise with
  | .error e => .rejected e
  | .ok _ =>
    if connectStatus = CONNECT_STATUS.UNIMPLEMENTED then
      match checker with
      | some f => .value (some (f ()))
      | none => .threw (jsOrStr message defaultIncompatibleMsg)
    else
      .value none

/-- Modelled from the spec: the connect routine that performs the
handshake is outside this excerpt; per the spec, when a handshake attempt
fails the shared connect promise settles to that failure, so a FAILED
status implies the promise awaited by checkCompatibility is a
rejection. -/
def failedStatusRejects (connectPromise : Except String Unit)
    (connectStatus : CONNECT_STATUS) : Prop :=
  connectStatus = CONNECT_STATUS.FAILED → ∃ e, connectPromise = .error e

/-- Operations a caller can perform on a constructed client: the
checkCompatibility call defined in this excerpt, plus reassignment of the
fields the class leaves mutable (connectStatus, serverInfo, timeout,
metadata; tlsMode, config and channelOptions are readonly). -/
inductive ClientOp where
  | checkCompat (message : Option String) (hasChecker : Bool)
  | setConnectStatus (st : CONNECT_STATUS)
  | setServerInfo (si : List (String × String))
  | setTimeoutField (t : Int)
  | putMetadata (k v : String)
deriving DecidableEq, Repr

/-- Effect of one operation on the client state.  checkCompatibility only
reads state; the setters reassign the mutable fields. -/
def applyOp (s : ClientState) : ClientOp → ClientState
  | .checkCompat _ _ => s
  | .setConnectStatus st => { s with connectStatus := st }
  | .setServerInfo si => { s with serverInfo := si }
  | .setTimeoutField t => { s with timeout := t }
  | .putMetadata k v => { s with metadata := s.metadata ++ [(k, v)] }

/-- A sequence of operations applied to a constructed client. -/
def applyOps (s : ClientState) (ops : List ClientOp) : ClientState :=
  ops.foldl applyOp s

/-- A field entry of a CreateCollectionReq. -/
structure FieldReq where
  name : String
  description : Option String := none
  data_type : Int := 0
  type_params : List (String × String) := []
deriving DecidableEq, Repr

/-- MilvusNode.createCollection's request shape (the fields the payload
construction consumes).  `fields` is an Option so a missing field and an
empty list are both representable. -/
structure CreateCollectionReq where
  collection_name : String := ""
  description : Option String := none
  autoID : Option Bool := none
  fields : Option (List FieldReq) := none
deriving DecidableEq, Repr

/-- A FieldSchema message as built at lines 112-121 of
src/milvus/index.ts. -/
structure FieldSchemaMsg where
  name : String
  description : Option String
  dataType : Int
  typeParams : List (String × String)
deriving DecidableEq, Repr

/-- The CollectionSchema payload encoded and sent to the server. -/
structure CollectionSchemaMsg where
  name : String
  description : String
  autoID : Bool
  fields : List FieldSchemaMsg
deriving DecidableEq, Repr

/-- The field transform of lines 112-121: spread the field and add the
camelCase typeParams and dataType keys. -/
def toFieldSchema (f : FieldReq) : FieldSchemaMsg :=
  { name := f.name
    description := f.description
    dataType := f.data_type
    typeParams := f.type_params }

/-- Lines 92-124 of src/milvus/index.ts: the guard
`!data.fields || !data.fields.length || !data.collection_name` and the
payload construction, in which `autoID: data.autoID || true`. -/
def createCollectionSchema (data : CreateCollectionReq) :
    Except String CollectionSchemaMsg :=
  if data.fields.isNone || (data.fields.getD []).length = 0 ||
      data.collection_name = "" then
    .error "fields and collection_name is needed"
  else
    .ok
      { name := data.collection_name
        description := jsOrStr data.description ""
        autoID := jsOrBool data.autoID true
        fields := (data.fields.getD []).map toFieldSchema }

/-- Inversion of a successful construction: the readonly fields of the
resulting state are exactly the values the constructor computes from the
configuration (mkConfig only touches username/password, so the TLS mode,
channel options and timeout agree with those computed from the original
configuration by definitional unfolding). -/
theorem construct_ok_fields (freshId : String) (ptt : String → Int)
    (cfg : ClientConfig) (fs : FileSys) (s : ClientState) (log : List String)
    (h : construct freshId ptt cfg fs = (.ok s, log)) :
    s.tlsMode = tlsModeOf cfg ∧
    s.config = mkConfig cfg ∧
    s.channelOptions = buildChannelOptions cfg ∧
    s.timeout = effectiveTimeout ptt cfg.timeout ∧
    s.connectStatus = CONNECT_STATUS.NOT_CONNECTED := by
  simp only [construct] at h
  split at h
  · simp at h
  · split at h
    · simp at h
    · split at h
      · simp at h
      · split at h
        · simp at h
        · simp only [Prod.mk.injEq, Except.ok.injEq] at h
          obtain ⟨h1, -⟩ := h
          subst h1
          exact ⟨rfl, rfl, rfl, rfl, rfl⟩

/-- A single operation never changes the tlsMode field. -/
theorem applyOp_tlsMode (s : ClientState) (op : ClientOp) :
    (applyOp s op).tlsMode = s.tlsMode := by
  cases op <;> rfl

/-- No sequence of operations changes the tlsMode field. -/
theorem applyOps_tlsMode (ops : List ClientOp) :
    ∀ s : ClientState, (applyOps s ops).tlsMode = s.tlsMode := by
  induction ops with
  | nil => intro s; rfl
  | cons op rest ih =>
    intro s
    have : applyOps s (op :: rest) = applyOps (applyOp s op) rest := rfl
    rw [this, ih, applyOp_tlsMode]

/-- C1: For every client configuration, the security mode computed at
construction is a pure function of the address scheme, the ssl flag, and
the TLS block: TwoWay whenever tls.rootCertPath is present (regardless of
address scheme or ssl flag); otherwise OneWay whenever the address starts
with the secure scheme or the ssl flag is set; otherwise Disabled. -/
theorem tlsMode_characterized (freshId : String) (ptt : String → Int)
    (cfg : ClientConfig) (fs : FileSys) (s : ClientState) (log : List String)
    (h : construct freshId ptt cfg fs = (.ok s, log)) :
    s.tlsMode =
      if (match cfg.tls with
          | some t => truthyStr t.rootCertPath
          | none => false) then TLS_MODE.TWO_WAY
      else if (cfg.address.getD "").startsWith "https://" || truthyBool cfg.ssl
        then TLS_MODE.ONE_WAY
      else TLS_MODE.DISABLED := by
  rw [(construct_ok_fields _ _ _ _ _ _ h).1]
  rcases cfg with ⟨addr, sslf, un, pw, tls, co, idf, tmo, pfp⟩
  cases tls with
  | none => simp [tlsModeOf]
  | some t => rfl

/-- C4: A configuration whose address is missing or empty fails
construction with the address-is-required configuration error and an
empty I/O log: no file is read, in particular the schema files are not
loaded. -/
theorem address_required_before_io (freshId : String) (ptt : String → Int)
    (cfg : ClientConfig) (fs : FileSys) (h : truthyStr cfg.address = false) :
    construct freshId ptt cfg fs =
      (.error .MILVUS_ADDRESS_IS_REQUIRED, []) := by
  simp [construct, h]

/-- C5: the TLS mode is fixed at construction: after any sequence of
client operations, it still equals the mode computed from the original
configuration. -/
theorem tlsMode_immutable (freshId : String) (ptt : String → Int)
    (cfg : ClientConfig) (fs : FileSys) (s : ClientState) (log : List String)
    (h : construct freshId ptt cfg fs = (.ok s, log)) (ops : List ClientOp) :
    (applyOps s ops).tlsMode = tlsModeOf cfg ∧ s.tlsMode = tlsModeOf cfg := by
  have hf := (construct_ok_fields _ _ _ _ _ _ h).1
  exact ⟨(applyOps_tlsMode ops s).trans hf, hf⟩

/-- C8: after successful construction the stored configuration's username
and password are strings: absent values become the empty string, supplied
non-empty values are kept unchanged. -/
theorem username_password_strings (freshId : String) (ptt : String → Int)
    (cfg : ClientConfig) (fs : FileSys) (s : ClientState) (log : List String)
    (h : construct freshId ptt cfg fs = (.ok s, log)) :
    (∃ u, s.config.username = some u ∧
      (cfg.username = none → u = "") ∧
      ∀ v, cfg.username = some v → v ≠ "" → u = v) ∧
    (∃ p, s.config.password = some p ∧
      (cfg.password = none → p = "") ∧
      ∀ v, cfg.password = some v → v ≠ "" → p = v) := by
  have hc := (construct_ok_fields _ _ _ _ _ _ h).2.1
  constructor
  · refine ⟨jsOrStr cfg.username "", by rw [hc]; rfl, ?_, ?_⟩
    · intro hnone; simp [jsOrStr, hnone]
    · intro v hv hne; simp [jsOrStr, hv, hne]
  · refine ⟨jsOrStr cfg.password "", by rw [hc]; rfl, ?_, ?_⟩
    · intro hnone; simp [jsOrStr, hnone]
    · intro v hv hne; simp [jsOrStr, hv, hne]

/-- C10: a numeric timeout of 0 and an absent timeout both fall back to
the default connect timeout; a non-zero numeric timeout is honored as
given; a string timeout goes through the duration-token parser. -/
theorem timeout_defaulting (freshId : String) (ptt : String → Int)
    (cfg : ClientConfig) (fs : FileSys) (s : ClientState) (log : List String)
    (h : construct freshId ptt cfg fs = (.ok s, log)) :
    (cfg.timeout = .num 0 → s.timeout = DEFAULT_CONNECT_TIMEOUT) ∧
    (cfg.timeout = .undef → s.timeout = DEFAULT_CONNECT_TIMEOUT) ∧
    (∀ n : Int, cfg.timeout = .num n → n ≠ 0 → s.timeout = n) ∧
    (∀ str, cfg.timeout = .str str → s.timeout = ptt str) := by
  have ht := (construct_ok_fields _ _ _ _ _ _ h).2.2.2.1
  refine ⟨?_, ?_, ?_, ?_⟩
  · intro h0; rw [ht, h0]; simp [effectiveTimeout]
  · intro h0; rw [ht, h0]; rfl
  · intro n hn hne; rw [ht, hn]; simp [effectiveTimeout, hne]
  · intro str hs; rw [ht, hs]; rfl

/-- Lookup in the spread of two JS objects: the right object's entry for a
key shadows the left object's. -/
theorem jsGet_append (a b : JsObj) (k : String) :
    jsGet (a ++ b) k = ((jsGet b k).elim (jsGet a k) fun v => some v) := by
  unfold jsGet
  rw [List.reverse_append, List.find?_append]
  cases hb : b.reverse.find? (fun p => p.1 == k) with
  | none => simp [Option.orElse, hb]
  | some v => simp [Option.orElse, hb]

/-- C6 (amended): per key, the effective channel options are the user
options over the defaults — except grpc.ssl_target_name_override, which is
forced to tls.serverName whenever that is a non-empty string, overriding
both the defaults and any user-supplied value. -/
theorem channelOptions_merged (freshId : String) (ptt : String → Int)
    (cfg : ClientConfig) (fs : FileSys) (s : ClientState) (log : List String)
    (h : construct freshId ptt cfg fs = (.ok s, log)) (k : String) :
    jsGet s.channelOptions k =
      if ((match cfg.tls with
           | some t => t.serverName
           | none => none).getD "" ≠ "" ∧ k = "grpc.ssl_target_name_override")
      then some (.s ((match cfg.tls with
                      | some t => t.serverName
                      | none => none).getD ""))
      else
        (jsGet cfg.channelOptions k).elim (jsGet defaultChannelOptions k)
          fun v => some v := by
  rw [(construct_ok_fields _ _ _ _ _ _ h).2.2.1]
  unfold buildChannelOptions
  rcases cfg with ⟨addr, sslf, un, pw, tls, co, idf, tmo, pfp⟩
  cases tls with
  | none => simp [jsGet_append]
  | some t =>
    cases hsn : t.serverName with
    | none => simp [hsn, jsGet_append]
    | some sn =>
      by_cases hne : sn = ""
      · simp [hsn, hne, jsGet_append]
      · by_cases hk : k = "grpc.ssl_target_name_override"
        · subst hk
          simp [hsn, hne, jsGet_append, jsGet]
        · have hk' : ¬("grpc.ssl_target_name_override" = k) :=
            fun hh => hk hh.symm
          simp [hsn, hne, hk, hk', jsGet_append, jsGet]
          cases List.find? (fun p => p.1 == k) co.reverse <;> simp

/-- The configuration of the C6 counterexample: a user-supplied
grpc.ssl_target_name_override channel option together with a
tls.serverName. -/
def c6Cfg : ClientConfig :=
  { address := some "host:1"
    channelOptions := [("grpc.ssl_target_name_override", .s "user-sni")]
    tls := some { serverName := some "tls-sni" } }

/-- An empty client state, used only to make extraction of a known-ok
construction result total. -/
def blankState : ClientState :=
  { clientId := ""
    connectStatus := .NOT_CONNECTED
    tlsMode := .DISABLED
    config := {}
    channelOptions := []
    serverInfo := []
    timeout := 0
    protoFilePathMilvus := ""
    protoFilePathSchema := ""
    schemaProto := ""
    milvusProto := ""
    collectionSchemaType := ("", "")
    fieldSchemaType := ("", "")
    creds := .insecure
    metadata := []
    }

/-- The state constructed from the C6 counterexample configuration. -/
def c6State : ClientState :=
  match (construct "fresh" (fun _ => 0) c6Cfg fun _ => .ok "proto").1 with
  | .ok s => s
  | .error _ => blankState

/-- C6 counterexample: the user supplies the channel option
grpc.ssl_target_name_override = "user-sni", yet the channel options of the
constructed client carry "tls-sni" (the tls.serverName) for that key, so a
user-supplied key does not always keep the user's value. -/
theorem channelOptions_user_precedence_cex :
    jsGet c6Cfg.channelOptions "grpc.ssl_target_name_override" =
      some (.s "user-sni") ∧
    jsGet c6State.channelOptions "grpc.ssl_target_name_override" =
      some (.s "tls-sni") ∧
    OptVal.s "tls-sni" ≠ OptVal.s "user-sni" := by
  refine ⟨rfl, rfl, by decide⟩

/-- The PEM material an optional configured path contributes: the file
contents when a non-empty path is configured and readable, none when the
path is absent. -/
def readContent (p : Option String) (fs : FileSys) : Option String :=
  match p with
  | some s => if s = "" then none else (fs s).toOption
  | none => none

/-- Membership in presentPath pins down the optional path. -/
theorem presentPath_mem {q : String} {p : Option String}
    (hq : q ∈ presentPath p) : p = some q ∧ q ≠ "" := by
  cases p with
  | none => simp [presentPath] at hq
  | some s =>
    by_cases hs : s = ""
    · simp [presentPath, hs] at hq
    · simp [presentPath, hs] at hq
      subst hq
      exact ⟨rfl, hs⟩

/-- When every configured read succeeds, readIfPresent returns the file
contents (or none for an absent path) and logs exactly the configured
path. -/
theorem readIfPresent_ok (p : Option String) (fs : FileSys)
    (h : ∀ q ∈ presentPath p, (fs q).isOk) :
    readIfPresent p fs = (.ok (readContent p fs), presentPath p) := by
  cases p with
  | none => rfl
  | some s =>
    by_cases hs : s = ""
    · simp [readIfPresent, readContent, presentPath, hs]
    · have hok := h s (by simp [presentPath, hs])
      cases hfs : fs s with
      | ok c =>
        simp [readIfPresent, readContent, presentPath, hs, hfs,
          Except.toOption]
      | error e => rw [hfs] at hok; simp [Except.isOk, Except.toBool] at hok

/-- A successful readIfPresent implies every configured read succeeded. -/
theorem readIfPresent_ok_inv {p : Option String} {fs : FileSys}
    {b : Option String} {l : List String}
    (h : readIfPresent p fs = (.ok b, l)) :
    ∀ q ∈ presentPath p, (fs q).isOk := by
  intro q hq
  obtain ⟨hp, hne⟩ := presentPath_mem hq
  subst hp
  cases hfs : fs q with
  | ok c => simp [Except.isOk, Except.toBool, hfs]
  | error e => simp [readIfPresent, hne, hfs] at h

/-- A successful two-way credential construction implies every configured
PEM read succeeded. -/
theorem buildTwoWay_ok_inv {t : TlsConfig} {fs : FileSys} {c : Creds}
    {l : List String} (h : buildTwoWay t fs = (.ok c, l)) :
    ∀ p ∈ truthyPaths t, (fs p).isOk := by
  intro p hp
  unfold buildTwoWay at h
  rcases hr1 : readIfPresent t.rootCertPath fs with ⟨r1, l1⟩
  rw [hr1] at h
  cases r1 with
  | error e => simp at h
  | ok b1 =>
    rcases hr2 : readIfPresent t.privateKeyPath fs with ⟨r2, l2⟩
    rw [hr2] at h
    cases r2 with
    | error e => simp at h
    | ok b2 =>
      rcases hr3 : readIfPresent t.certChainPath fs with ⟨r3, l3⟩
      rw [hr3] at h
      cases r3 with
      | error e => simp at h
      | ok b3 =>
        unfold truthyPaths at hp
        rcases List.mem_append.mp hp with hp' | hp3
        · rcases List.mem_append.mp hp' with hp1 | hp2
          · exact readIfPresent_ok_inv hr1 p hp1
          · exact readIfPresent_ok_inv hr2 p hp2
        · exact readIfPresent_ok_inv hr3 p hp3

/-- C7: in the TWO_WAY credential branch, each of the three PEM files is
read exactly when its path is configured; absent paths contribute a null
buffer and no error; and when any configured read fails, credential
construction yields a construction-time error instead of credentials. -/
theorem twoWay_pem_reads (t : TlsConfig) (fs : FileSys) :
    ((∀ p ∈ truthyPaths t, (fs p).isOk) →
      buildTwoWay t fs =
        (.ok (.sslTwoWay (readContent t.rootCertPath fs)
            (readContent t.privateKeyPath fs)
            (readContent t.certChainPath fs) t.verifyOptions),
         truthyPaths t)) ∧
    ((∃ p ∈ truthyPaths t, ¬ (fs p).isOk = true) →
      ∃ err, (buildTwoWay t fs).1 = .error err) := by
  constructor
  · intro h
    have h1 := readIfPresent_ok t.rootCertPath fs fun q hq =>
      h q (by unfold truthyPaths; simp [hq])
    have h2 := readIfPresent_ok t.privateKeyPath fs fun q hq =>
      h q (by unfold truthyPaths; simp [hq])
    have h3 := readIfPresent_ok t.certChainPath fs fun q hq =>
      h q (by unfold truthyPaths; simp [hq])
    unfold buildTwoWay
    rw [h1, h2, h3]
    rfl
  · intro hbad
    obtain ⟨p, hp, hnok⟩ := hbad
    cases hb : buildTwoWay t fs with
    | mk r l =>
      cases r with
      | ok c => exact absurd (buildTwoWay_ok_inv hb p hp) hnok
      | error err => exact ⟨err, rfl⟩

/-- C2: once the handshake has resolved to Unimplemented, a call with no
checker throws the caller-supplied message when one is given (non-empty)
and the default incompatibility message otherwise; a call with a checker
returns the checker's result and does not throw. -/
theorem checkCompat_unimplemented {α : Type} (m : String) (f : Unit → α)
    (hm : m ≠ "") :
    checkCompatibility (.ok ()) .UNIMPLEMENTED (some m)
        (none : Option (Unit → α)) = .threw m ∧
    checkCompatibility (.ok ()) .UNIMPLEMENTED none
        (none : Option (Unit → α)) = .threw defaultIncompatibleMsg ∧
    checkCompatibility (.ok ()) .UNIMPLEMENTED (some m) (some f) =
      .value (some (f ())) := by
  refine ⟨?_, rfl, rfl⟩
  simp [checkCompatibility, jsOrStr, hm]

/-- C3: with a Failed status the awaited connect promise is a rejection,
so checkCompatibility propagates that underlying connection failure, an
outcome distinguishable (by constructor) from an incompatibility error
and from a returned value. -/
theorem checkCompat_failed {α : Type} (p : Except String Unit)
    (st : CONNECT_STATUS) (m : Option String) (ch : Option (Unit → α))
    (hinv : failedStatusRejects p st) (hst : st = .FAILED) :
    ∃ e, checkCompatibility p st m ch = .rejected e ∧
      (∀ msg, CompatResult.rejected (α := α) e ≠ .threw msg) ∧
      (∀ v, CompatResult.rejected (α := α) e ≠ .value v) := by
  obtain ⟨e, he⟩ := hinv hst
  subst he
  refine ⟨e, rfl, ?_, ?_⟩
  · intro msg hne
    cases hne
  · intro v hne
    cases hne

/-- C9: any CreateCollectionReq that passes the createCollection guard
produces a collection schema payload whose autoID field is true — the
caller cannot obtain autoID = false (a false or absent autoID both become
true under `data.autoID || true`). -/
theorem createCollection_autoID_true (data : CreateCollectionReq)
    (schema : CollectionSchemaMsg)
    (h : createCollectionSchema data = .ok schema) : schema.autoID = true := by
  unfold createCollectionSchema at h
  split at h
  · simp at h
  · simp only [Except.ok.injEq] at h
    subst h
    show jsOrBool data.autoID true = true
    cases data.autoID with
    | none => rfl
    | some b => cases b <;> rfl

/-- A trivial duration-token parser stand-in for concrete runs. -/
def wPtt : String → Int := fun _ => 77

/-- A filesystem on which every read succeeds. -/
def wFs : FileSys := fun _ => .ok "PEM"

/-- Concrete configuration for the construction witnesses: insecure
address and ssl flag off, yet a TLS root certificate path; a supplied
username, no password; a numeric 0 timeout. -/
def wCfg : ClientConfig :=
  { address := some "http://host:1"
    ssl := some false
    username := some "bob"
    password := none
    tls := some { rootCertPath := some "root.pem" }
    timeout := .num 0 }

/-- The state constructed from the witness configuration. -/
def wState : ClientState :=
  match (construct "fresh-id" wPtt wCfg wFs).1 with
  | .ok s => s
  | .error _ => blankState

/-- The I/O log of the witness construction. -/
def wLog : List String := (construct "fresh-id" wPtt wCfg wFs).2

/-- C1 witness: on the concrete configuration (http address, ssl false,
rootCertPath present) the constructed mode is TwoWay. -/
theorem tlsMode_characterized_witness : wState.tlsMode = TLS_MODE.TWO_WAY := by
  have h := tlsMode_characterized "fresh-id" wPtt wCfg wFs wState wLog rfl
  rw [h]
  decide

/-- C4 witness: the empty configuration (no address) fails with the
address-required error and an empty I/O log. -/
theorem address_required_before_io_witness :
    construct "fresh-id" wPtt {} wFs =
      (.error .MILVUS_ADDRESS_IS_REQUIRED, []) :=
  address_required_before_io "fresh-id" wPtt {} wFs rfl

/-- C5 witness: after a status change and a metadata write the tlsMode of
the witness client is still the TwoWay mode its configuration yields. -/
theorem tlsMode_immutable_witness :
    (applyOps wState
        [ClientOp.setConnectStatus .CONNECTED,
         ClientOp.putMetadata "authorization" "token"]).tlsMode =
      TLS_MODE.TWO_WAY := by
  have h := (tlsMode_immutable "fresh-id" wPtt wCfg wFs wState wLog rfl
    [ClientOp.setConnectStatus .CONNECTED,
     ClientOp.putMetadata "authorization" "token"]).1
  rw [h]
  decide

/-- C8 witness: the supplied username "bob" is kept, the absent password
becomes the empty string. -/
theorem username_password_strings_witness :
    wState.config.username = some "bob" ∧
    wState.config.password = some "" := by
  obtain ⟨⟨u, hu, -, hkeep⟩, ⟨p, hp, hnone, -⟩⟩ :=
    username_password_strings "fresh-id" wPtt wCfg wFs wState wLog rfl
  have hu2 : u = "bob" := hkeep "bob" rfl (by decide)
  have hp2 : p = "" := hnone rfl
  rw [hu, hp, hu2, hp2]
  exact ⟨rfl, rfl⟩

/-- C10 witness: the numeric 0 timeout of the witness configuration is
replaced by the default connect timeout. -/
theorem timeout_defaulting_witness :
    wState.timeout = DEFAULT_CONNECT_TIMEOUT :=
  (timeout_defaulting "fresh-id" wPtt wCfg wFs wState wLog rfl).1 rfl

/-- C6 witness (amended claim): on the counterexample configuration the
effective grpc.ssl_target_name_override is the tls.serverName. -/
theorem channelOptions_merged_witness :
    jsGet c6State.channelOptions "grpc.ssl_target_name_override" =
      some (.s "tls-sni") := by
  have h := channelOptions_merged "fresh" (fun _ => 0) c6Cfg
    (fun _ => .ok "proto") c6State
    (construct "fresh" (fun _ => 0) c6Cfg fun _ => .ok "proto").2 rfl
    "grpc.ssl_target_name_override"
  rw [h]
  decide

/-- C2 witness: concrete UNIMPLEMENTED calls with a custom message, with
no message, and with a checker. -/
theorem checkCompat_unimplemented_witness :
    checkCompatibility (.ok ()) .UNIMPLEMENTED (some "custom message")
        (none : Option (Unit → Nat)) = .threw "custom message" ∧
    checkCompatibility (.ok ()) .UNIMPLEMENTED none
        (none : Option (Unit → Nat)) = .threw defaultIncompatibleMsg ∧
    checkCompatibility (.ok ()) .UNIMPLEMENTED (some "custom message")
        (some fun _ => (42 : Nat)) = .value (some 42) :=
  checkCompat_unimplemented "custom message" (fun _ => (42 : Nat)) (by decide)

/-- C3 witness: a FAILED status with a rejected connect promise
propagates the concrete connection failure, which is not the
incompatibility error. -/
theorem checkCompat_failed_witness :
    checkCompatibility (.error "ECONNREFUSED") .FAILED none
        (none : Option (Unit → Nat)) = .rejected "ECONNREFUSED" ∧
    CompatResult.rejected (α := Nat) "ECONNREFUSED" ≠
      .threw defaultIncompatibleMsg := by
  obtain ⟨e, h1, h2, -⟩ := checkCompat_failed (α := Nat)
    (.error "ECONNREFUSED") .FAILED none none
    (fun _ => ⟨"ECONNREFUSED", rfl⟩) rfl
  have he : e = "ECONNREFUSED" := by
    have h4 : CompatResult.rejected (α := Nat) e = .rejected "ECONNREFUSED" :=
      h1.symm.trans rfl
    simpa using h4
  subst he
  exact ⟨h1, h2 defaultIncompatibleMsg⟩

/-- TLS block of the C7 success witness: root certificate and certificate
chain configured, private key absent. -/
def w7t : TlsConfig :=
  { rootCertPath := some "root.pem", certChainPath := some "chain.pem" }

/-- TLS block of the C7 failure witness: root certificate and private key
configured. -/
def w7bad : TlsConfig :=
  { rootCertPath := some "root.pem", privateKeyPath := some "priv.pem" }

/-- A filesystem on which only the private key read fails. -/
def w7badFs : FileSys :=
  fun s => if s = "priv.pem" then .error "ENOENT" else .ok "PEM"

/-- C7 witness: the configured root certificate and chain are read (and
only they), the absent private key becomes a null buffer without error;
on the failing filesystem the configured private key read aborts the
construction with an error. -/
theorem twoWay_pem_reads_witness :
    buildTwoWay w7t wFs =
      (.ok (.sslTwoWay (some "PEM") none (some "PEM") none),
       ["root.pem", "chain.pem"]) ∧
    ∃ err, (buildTwoWay w7bad w7badFs).1 = .error err := by
  constructor
  · have h := (twoWay_pem_reads w7t wFs).1 (by decide)
    rw [h]
    rfl
  · exact (twoWay_pem_reads w7bad w7badFs).2 ⟨"priv.pem", by decide, by decide⟩

/-- The C9 witness request: a legal create-collection request that
explicitly asks for autoID = false. -/
def c9Req : CreateCollectionReq :=
  { collection_name := "coll"
    autoID := some false
    fields := some [{ name := "vec", data_type := 101 }] }

/-- The schema payload the C9 witness request produces. -/
def c9Schema : CollectionSchemaMsg :=
  match createCollectionSchema c9Req with
  | .ok s => s
  | .error _ =>
    { name := "", description := "", autoID := false, fields := [] }

/-- C9 witness: even with autoID explicitly false in the request, the
encoded schema payload carries autoID = true. -/
theorem createCollection_autoID_true_witness : c9Schema.autoID = true :=
  createCollection_autoID_true c9Req c9Schema rfl

end MilvusSdk
